import Mathlib

/-!
Shallow embedding of the `olkb-planck-oryx-converter` keymap repository
(QMK/Vial keymap for a Planck rev6): the keymap tables, tap-dance
callbacks, the custom dual-function key handler, the encoder handler and
the build-time configuration constants, together with theorems settling
the specification claims about them.

Machine integers are modelled as `Nat` (keycodes are 16-bit values,
`layer_state_t` is a bit mask); side-effectful key actions
(`register_code16` / `unregister_code16` / `tap_code16`) are modelled as
lists of key events that a callback emits, and the mutable globals the
callbacks touch (`dance_state`, the muse variables) are threaded
explicitly.
-/

namespace Planck

/-- A key action performed through the framework: pressing (registering)
or releasing (unregistering) a 16-bit keycode. -/
inductive KeyEvent where
  | reg : Nat → KeyEvent
  | unreg : Nat → KeyEvent
deriving DecidableEq, Repr

/-- The keycode a key event acts on. -/
def KeyEvent.kc : KeyEvent → Nat
  | .reg k => k
  | .unreg k => k

/-- `register_code16(kc)`: press a 16-bit keycode. -/
def register_code16 (k : Nat) : List KeyEvent := [KeyEvent.reg k]

/-- `unregister_code16(kc)`: release a 16-bit keycode. -/
def unregister_code16 (k : Nat) : List KeyEvent := [KeyEvent.unreg k]

/-- `tap_code16(kc)`: press then release a 16-bit keycode. -/
def tap_code16 (k : Nat) : List KeyEvent := register_code16 k ++ unregister_code16 k

/-- `register_code(kc)`: press a basic (8-bit) keycode. -/
def register_code (k : Nat) : List KeyEvent := [KeyEvent.reg k]

/-- `unregister_code(kc)`: release a basic (8-bit) keycode. -/
def unregister_code (k : Nat) : List KeyEvent := [KeyEvent.unreg k]

/-! ### Framework keycode values (QMK `keycodes.h` / `quantum_keycodes.h`)

The 16-bit numeric values assigned by the QMK framework to the keycode
names the keymap uses. Basic keycodes are USB HID usage ids. -/

def KC_NO : Nat := 0x0000
def KC_TRANSPARENT : Nat := 0x0001
def KC_A : Nat := 0x04
def KC_B : Nat := 0x05
def KC_C : Nat := 0x06
def KC_D : Nat := 0x07
def KC_E : Nat := 0x08
def KC_F : Nat := 0x09
def KC_G : Nat := 0x0A
def KC_H : Nat := 0x0B
def KC_I : Nat := 0x0C
def KC_J : Nat := 0x0D
def KC_K : Nat := 0x0E
def KC_L : Nat := 0x0F
def KC_M : Nat := 0x10
def KC_N : Nat := 0x11
def KC_O : Nat := 0x12
def KC_P : Nat := 0x13
def KC_Q : Nat := 0x14
def KC_R : Nat := 0x15
def KC_S : Nat := 0x16
def KC_T : Nat := 0x17
def KC_U : Nat := 0x18
def KC_V : Nat := 0x19
def KC_W : Nat := 0x1A
def KC_X : Nat := 0x1B
def KC_Y : Nat := 0x1C
def KC_Z : Nat := 0x1D
def KC_1 : Nat := 0x1E
def KC_2 : Nat := 0x1F
def KC_3 : Nat := 0x20
def KC_4 : Nat := 0x21
def KC_5 : Nat := 0x22
def KC_6 : Nat := 0x23
def KC_7 : Nat := 0x24
def KC_8 : Nat := 0x25
def KC_9 : Nat := 0x26
def KC_0 : Nat := 0x27
def KC_ENTER : Nat := 0x28
def KC_ESCAPE : Nat := 0x29
def KC_BSPC : Nat := 0x2A
def KC_TAB : Nat := 0x2B
def KC_SPACE : Nat := 0x2C
def KC_MINUS : Nat := 0x2D
def KC_EQUAL : Nat := 0x2E
def KC_LBRC : Nat := 0x2F
def KC_RBRC : Nat := 0x30
def KC_BSLS : Nat := 0x31
def KC_SCLN : Nat := 0x33
def KC_QUOTE : Nat := 0x34
def KC_GRAVE : Nat := 0x35
def KC_COMMA : Nat := 0x36
def KC_DOT : Nat := 0x37
def KC_SLASH : Nat := 0x38
def KC_CAPS : Nat := 0x39
def KC_F1 : Nat := 0x3A
def KC_F2 : Nat := 0x3B
def KC_F3 : Nat := 0x3C
def KC_F4 : Nat := 0x3D
def KC_F5 : Nat := 0x3E
def KC_F6 : Nat := 0x3F
def KC_F7 : Nat := 0x40
def KC_F8 : Nat := 0x41
def KC_F9 : Nat := 0x42
def KC_F10 : Nat := 0x43
def KC_F11 : Nat := 0x44
def KC_F12 : Nat := 0x45
def KC_INSERT : Nat := 0x49
def KC_HOME : Nat := 0x4A
def KC_PAGE_UP : Nat := 0x4B
def KC_DELETE : Nat := 0x4C
def KC_END : Nat := 0x4D
def KC_PGDN : Nat := 0x4E
def KC_RIGHT : Nat := 0x4F
def KC_LEFT : Nat := 0x50
def KC_DOWN : Nat := 0x51
def KC_UP : Nat := 0x52
def KC_KP_SLASH : Nat := 0x54
def KC_KP_ASTERISK : Nat := 0x55
def KC_KP_MINUS : Nat := 0x56
def KC_KP_PLUS : Nat := 0x57
def KC_KP_1 : Nat := 0x59
def KC_KP_2 : Nat := 0x5A
def KC_KP_3 : Nat := 0x5B
def KC_KP_4 : Nat := 0x5C
def KC_KP_5 : Nat := 0x5D
def KC_KP_6 : Nat := 0x5E
def KC_KP_0 : Nat := 0x62
def KC_KP_DOT : Nat := 0x63
def KC_KP_EQUAL : Nat := 0x67
def KC_KP_COMMA : Nat := 0x85
def KC_LEFT_CTRL : Nat := 0xE0
def KC_LEFT_SHIFT : Nat := 0xE1
def KC_LEFT_ALT : Nat := 0xE2
def KC_LEFT_GUI : Nat := 0xE3
def KC_RIGHT_CTRL : Nat := 0xE4
def KC_RIGHT_SHIFT : Nat := 0xE5
def KC_RIGHT_ALT : Nat := 0xE6
def KC_RIGHT_GUI : Nat := 0xE7
def KC_MS_WH_UP : Nat := 0xD9
def KC_MS_WH_DOWN : Nat := 0xDA
def KC_PGUP : Nat := KC_PAGE_UP

/-- `QK_LCTL`: the Ctrl modifier bit of a 16-bit modified keycode. -/
def QK_LCTL : Nat := 0x0100
def QK_LSFT : Nat := 0x0200

/-- `LCTL(kc)`: keycode with the left-Ctrl modifier applied. -/
def LCTL (kc : Nat) : Nat := QK_LCTL ||| kc

/-- `LSFT(kc)`: keycode with the left-Shift modifier applied. -/
def LSFT (kc : Nat) : Nat := QK_LSFT ||| kc

/-- `RCTL(kc)`: keycode with the right-Ctrl modifier applied. -/
def RCTL (kc : Nat) : Nat := 0x1100 ||| kc

/-- `KC_TILD` is shifted grave in QMK. -/
def KC_TILD : Nat := LSFT KC_GRAVE

/-- `MO(layer)`: momentary layer switch keycode (`QK_MOMENTARY = 0x5220`). -/
def MO (layer : Nat) : Nat := 0x5220 ||| layer

/-- `TT(layer)`: layer tap-toggle keycode (`QK_LAYER_TAP_TOGGLE = 0x52C0`). -/
def TT (layer : Nat) : Nat := 0x52C0 ||| layer

/-- `TD(n)`: tap-dance keycode (`QK_TAP_DANCE = 0x5700`). -/
def TD (n : Nat) : Nat := 0x5700 ||| n

/-- `MT(mod, kc)`: mod-tap keycode. -/
def MT (mod kc : Nat) : Nat := 0x2000 ||| ((mod &&& 0x1F) <<< 8) ||| (kc &&& 0xFF)

def MOD_LSFT : Nat := 0x02
def MOD_RCTL : Nat := 0x14
def MOD_RSFT : Nat := 0x12

/-- Quantum keycodes used on the adjust layer (framework-assigned values;
only their identity matters to the keymap). -/
def QK_AUDIO_ON : Nat := 0x7480
def QK_AUDIO_OFF : Nat := 0x7481
def AU_TOGG : Nat := 0x7482
def QK_MUSIC_ON : Nat := 0x7488
def QK_MUSIC_OFF : Nat := 0x7489
def MU_TOGG : Nat := 0x748A
def QK_BOOT : Nat := 0x7C00

/-! ### Build-time configuration constants

From `olkb_firmware_plain/config.h` (tapping term, mouse keys) and from
`olkb_firmware/config.h` / `olkb_firmware_vial/config.h` (Vial UID and
unlock combo, identical in both files). -/

def TAPPING_TERM : Nat := 200
def MOUSEKEY_INTERVAL : Nat := 16
def MOUSEKEY_DELAY : Nat := 0
def MOUSEKEY_TIME_TO_MAX : Nat := 60
def MOUSEKEY_MAX_SPEED : Nat := 7
def MOUSEKEY_WHEEL_DELAY : Nat := 0
def COMBO_COUNT : Nat := 0
def VIAL_KEYBOARD_UID : List Nat := [0x89, 0xAB, 0xCD, 0xEF, 0x01, 0x23, 0x45, 0x77]
def VIAL_UNLOCK_COMBO_ROWS : List Nat := [0, 4]
def VIAL_UNLOCK_COMBO_COLS : List Nat := [0, 5]

/-! ### Layers, tap-dance indices, and the keymap table (`keymap.c`) -/

/-- `enum planck_layers` values, in declaration order. -/
def _BASE : Nat := 0
def _LOWER : Nat := 1
def _RAISE : Nat := 2
def _ADJUST : Nat := 3

/-- `enum tap_dance_codes` values, in declaration order. -/
def DANCE_0 : Nat := 0
def DANCE_1 : Nat := 1
def DANCE_2 : Nat := 2
def DANCE_3 : Nat := 3
def DANCE_4 : Nat := 4
def DANCE_5 : Nat := 5
def DANCE_6 : Nat := 6

/-- `#define LOWER MO(_LOWER)` -/
def LOWER : Nat := MO _LOWER

/-- `#define RAISE MO(_RAISE)` -/
def RAISE : Nat := MO _RAISE

/-- `#define DUAL_FUNC_0 LT(5, KC_D)` where `LT(layer, kc)` is the QMK
layer-tap keycode `0x4000 | ((layer & 0xF) << 8) | (kc & 0xFF)`. -/
def DUAL_FUNC_0 : Nat := 0x4000 ||| ((5 &&& 0xF) <<< 8) ||| (KC_D &&& 0xFF)

/-- Planck rev6 matrix dimensions (the board the keymap targets). -/
def MATRIX_ROWS : Nat := 8
def MATRIX_COLS : Nat := 6

/-- `const uint16_t PROGMEM keymaps[][MATRIX_ROWS][MATRIX_COLS]`:
the four layers, each 8 rows of 6 keycodes, in the order
`_BASE`, `_LOWER`, `_RAISE`, `_ADJUST`. -/
def keymaps : List (List (List Nat)) := [
  [ -- [_BASE]
    [KC_TAB, KC_Q, KC_W, KC_E, KC_R, KC_T],
    [TD DANCE_0, KC_A, KC_S, KC_D, KC_F, KC_G],
    [DUAL_FUNC_0, KC_Z, KC_X, KC_C, KC_V, KC_B],
    [LSFT KC_LEFT_ALT, KC_TRANSPARENT, KC_LEFT_GUI, TD DANCE_3, MT MOD_LSFT KC_BSLS, TD DANCE_4],
    [KC_Y, KC_U, KC_I, KC_O, KC_P, KC_ESCAPE],
    [KC_H, KC_J, KC_K, KC_L, KC_SCLN, TT 1],
    [KC_N, KC_M, KC_COMMA, KC_DOT, TD DANCE_1, TD DANCE_2],
    [KC_NO, TD DANCE_5, TD DANCE_6, MT MOD_RSFT KC_QUOTE, MT MOD_RCTL KC_SLASH, KC_EQUAL]],
  [ -- [_LOWER]
    [KC_TILD, KC_1, KC_2, KC_3, KC_4, KC_5],
    [KC_DELETE, KC_HOME, KC_UP, KC_END, KC_PAGE_UP, KC_KP_ASTERISK],
    [KC_BSPC, KC_LEFT, KC_DOWN, KC_RIGHT, KC_PGDN, KC_KP_SLASH],
    [KC_TRANSPARENT, KC_TRANSPARENT, KC_TRANSPARENT, KC_BSLS, KC_LEFT_SHIFT, KC_TRANSPARENT],
    [KC_6, KC_7, KC_8, KC_9, KC_0, KC_TRANSPARENT],
    [KC_KP_PLUS, KC_KP_4, KC_KP_5, KC_KP_6, KC_KP_EQUAL, KC_TRANSPARENT],
    [KC_KP_MINUS, KC_KP_1, KC_KP_2, KC_KP_3, KC_TRANSPARENT, KC_TRANSPARENT],
    [KC_NO, KC_KP_COMMA, KC_KP_0, KC_KP_DOT, KC_MINUS, KC_EQUAL]],
  [ -- [_RAISE]
    [KC_TRANSPARENT, KC_F1, KC_F2, KC_F3, KC_F4, KC_F5],
    [KC_TRANSPARENT, KC_F7, KC_F8, KC_F9, KC_F10, KC_F11],
    [KC_TRANSPARENT, KC_TRANSPARENT, KC_TRANSPARENT, KC_TRANSPARENT, KC_TRANSPARENT, KC_TRANSPARENT],
    [KC_TRANSPARENT, KC_TRANSPARENT, KC_TRANSPARENT, KC_TRANSPARENT, KC_TRANSPARENT, KC_TRANSPARENT],
    [KC_F6, KC_TRANSPARENT, KC_TRANSPARENT, KC_TRANSPARENT, KC_TRANSPARENT, KC_TRANSPARENT],
    [KC_F12, KC_TRANSPARENT, KC_TRANSPARENT, KC_TRANSPARENT, KC_TRANSPARENT, KC_TRANSPARENT],
    [KC_TRANSPARENT, KC_TRANSPARENT, KC_TRANSPARENT, KC_TRANSPARENT, KC_TRANSPARENT, KC_TRANSPARENT],
    [KC_NO, KC_TRANSPARENT, KC_TRANSPARENT, KC_TRANSPARENT, KC_TRANSPARENT, KC_TRANSPARENT]],
  [ -- [_ADJUST]
    [KC_TRANSPARENT, KC_TRANSPARENT, KC_TRANSPARENT, KC_TRANSPARENT, KC_TRANSPARENT, KC_TRANSPARENT],
    [KC_DELETE, KC_TRANSPARENT, QK_AUDIO_ON, QK_AUDIO_OFF, AU_TOGG, KC_TRANSPARENT],
    [KC_TRANSPARENT, KC_TRANSPARENT, QK_MUSIC_ON, QK_MUSIC_OFF, MU_TOGG, KC_TRANSPARENT],
    [KC_TRANSPARENT, KC_TRANSPARENT, KC_TRANSPARENT, KC_TRANSPARENT, KC_TRANSPARENT, KC_TRANSPARENT],
    [KC_TRANSPARENT, KC_TRANSPARENT, KC_TRANSPARENT, KC_TRANSPARENT, KC_TRANSPARENT, KC_TRANSPARENT],
    [KC_TRANSPARENT, KC_TRANSPARENT, KC_TRANSPARENT, KC_TRANSPARENT, KC_TRANSPARENT, QK_BOOT],
    [KC_TRANSPARENT, KC_TRANSPARENT, KC_TRANSPARENT, KC_TRANSPARENT, KC_TRANSPARENT, KC_TRANSPARENT],
    [KC_NO, KC_TRANSPARENT, KC_TRANSPARENT, KC_TRANSPARENT, KC_TRANSPARENT, KC_TRANSPARENT]]]

/-! ### `process_record_user` -/

/-- The parts of the framework's `keyrecord_t` the keymap reads:
`record->tap.count` and `record->event.pressed`. -/
structure keyrecord_t where
  tap_count : Nat
  pressed : Bool
deriving DecidableEq, Repr

/-- `process_record_user(keycode, record)` from `keymap.c`: handles the
single `switch` case `DUAL_FUNC_0` (returning `false`) and returns `true`
with no key action for every other keycode. The returned list is the key
events the call performs. -/
def process_record_user (keycode : Nat) (record : keyrecord_t) : Bool × List KeyEvent :=
  if keycode = DUAL_FUNC_0 then
    (false,
      if record.tap_count > 0 then
        if record.pressed then register_code16 KC_BSPC
        else unregister_code16 KC_BSPC
      else
        if record.pressed then register_code16 (LCTL KC_BSPC)
        else unregister_code16 (LCTL KC_BSPC))
  else
    (true, [])

/-! ### `encoder_update` -/

/-- The muse-related globals `encoder_update` reads and writes
(`muse_mode : bool`, `muse_offset : uint8_t`, `muse_tempo : uint16_t`). -/
structure MuseGlobals where
  muse_mode : Bool
  muse_offset : Nat
  muse_tempo : Nat
deriving DecidableEq, Repr

/-- `IS_LAYER_ON(layer)`: whether a layer bit is set in the global
`layer_state` mask. -/
def IS_LAYER_ON (layer_state layer : Nat) : Bool := Nat.testBit layer_state layer

/-- `encoder_update(clockwise)` from `keymap.c`. The preprocessor flag
`MOUSEKEY_ENABLE` is a parameter `mousekeyEnabled`; the global
`layer_state` and the muse globals are passed and returned explicitly.
`uint8_t`/`uint16_t` increments and decrements wrap modulo `2^8`/`2^16`. -/
def encoder_update (mousekeyEnabled : Bool) (layer_state : Nat) (g : MuseGlobals)
    (clockwise : Bool) : MuseGlobals × List KeyEvent :=
  if g.muse_mode then
    if IS_LAYER_ON layer_state _RAISE then
      if clockwise then ({ g with muse_offset := (g.muse_offset + 1) % 256 }, [])
      else ({ g with muse_offset := (g.muse_offset + 255) % 256 }, [])
    else
      if clockwise then ({ g with muse_tempo := (g.muse_tempo + 1) % 65536 }, [])
      else ({ g with muse_tempo := (g.muse_tempo + 65535) % 65536 }, [])
  else
    if clockwise then
      (g, if mousekeyEnabled then register_code KC_MS_WH_DOWN ++ unregister_code KC_MS_WH_DOWN
          else register_code KC_PGDN ++ unregister_code KC_PGDN)
    else
      (g, if mousekeyEnabled then register_code KC_MS_WH_UP ++ unregister_code KC_MS_WH_UP
          else register_code KC_PGUP ++ unregister_code KC_PGUP)

/-! ### `layer_state_set_user` -/

/-- The QMK framework function `update_tri_layer_state(state, l1, l2, l3)`,
embedded from its definition in `quantum/quantum.c`: if layers `l1` and
`l2` are both active, activate `l3`, otherwise deactivate it.
`layer_state_t` is a 16-bit mask, so the bitwise complement of the `l3`
mask is taken within 16 bits. -/
def update_tri_layer_state (state l1 l2 l3 : Nat) : Nat :=
  let mask12 := (1 <<< l1) ||| (1 <<< l2)
  let mask3 := 1 <<< l3
  if state &&& mask12 = mask12 then state ||| mask3
  else state &&& ((2 ^ 16 - 1) ^^^ mask3)

/-- `layer_state_set_user(state)` from `keymap.c`. -/
def layer_state_set_user (state : Nat) : Nat :=
  update_tri_layer_state state _LOWER _RAISE _ADJUST

/-! ### Tap dances -/

/-- `typedef struct { bool is_press_action; uint8_t step; } tap` -/
structure tap where
  is_press_action : Bool
  step : Nat
deriving DecidableEq, Repr

/-- The step (gesture classification) constants from the anonymous enum in
`keymap.c` (`SINGLE_TAP = 1`, the rest following in order). -/
def SINGLE_TAP : Nat := 1
def SINGLE_HOLD : Nat := 2
def DOUBLE_TAP : Nat := 3
def DOUBLE_HOLD : Nat := 4
def DOUBLE_SINGLE_TAP : Nat := 5
def MORE_TAPS : Nat := 6

/-- The global array `static tap dance_state[7]`, threaded explicitly
through the callbacks. -/
def DanceGlobals : Type := Fin 7 → tap

/-- Write `dance_state[i].step = v`. -/
def setStep (g : DanceGlobals) (i : Fin 7) (v : Nat) : DanceGlobals :=
  Function.update g i { g i with step := v }

/-- Read `dance_state[i].step`. -/
def stepOf (g : DanceGlobals) (i : Fin 7) : Nat := (g i).step

/-- The fields of the framework's `tap_dance_state_t` the callbacks read:
`count`, `interrupted`, `pressed`. -/
structure tap_dance_state_t where
  count : Nat
  interrupted : Bool
  pressed : Bool
deriving DecidableEq, Repr

/-- `dance_step(state)` from `keymap.c`: classify the gesture from the
framework-supplied tap-dance state. -/
def dance_step (state : tap_dance_state_t) : Nat :=
  if state.count = 1 then
    if state.interrupted || !state.pressed then SINGLE_TAP else SINGLE_HOLD
  else if state.count = 2 then
    if state.interrupted then DOUBLE_SINGLE_TAP
    else if state.pressed then DOUBLE_HOLD
    else DOUBLE_TAP
  else MORE_TAPS

/-- The type of a tap-dance callback: it receives the framework state and
the current globals and yields the new globals and the key events it
performs. (`wait_ms(10)` in the reset callbacks performs no key event and
is not modelled.) -/
def DanceFn : Type := tap_dance_state_t → DanceGlobals → DanceGlobals × List KeyEvent

/-- `on_dance_0`: triple-tap / further taps of `KC_DELETE`. -/
def on_dance_0 : DanceFn := fun state g =>
  (g, (if state.count = 3 then tap_code16 KC_DELETE ++ tap_code16 KC_DELETE ++ tap_code16 KC_DELETE
       else []) ++
      (if state.count > 3 then tap_code16 KC_DELETE else []))

/-- `dance_0_finished` -/
def dance_0_finished : DanceFn := fun state g =>
  let g' := setStep g 0 (dance_step state)
  (g',
    if stepOf g' 0 = SINGLE_TAP then register_code16 KC_DELETE
    else if stepOf g' 0 = DOUBLE_TAP then register_code16 (LCTL KC_DELETE)
    else if stepOf g' 0 = DOUBLE_SINGLE_TAP then tap_code16 KC_DELETE ++ register_code16 KC_DELETE
    else [])

/-- `dance_0_reset` -/
def dance_0_reset : DanceFn := fun _ g =>
  (setStep g 0 0,
    if stepOf g 0 = SINGLE_TAP then unregister_code16 KC_DELETE
    else if stepOf g 0 = DOUBLE_TAP then unregister_code16 (LCTL KC_DELETE)
    else if stepOf g 0 = DOUBLE_SINGLE_TAP then unregister_code16 KC_DELETE
    else [])

/-- `on_dance_1`: triple-tap / further taps of `KC_LBRC`. -/
def on_dance_1 : DanceFn := fun state g =>
  (g, (if state.count = 3 then tap_code16 KC_LBRC ++ tap_code16 KC_LBRC ++ tap_code16 KC_LBRC
       else []) ++
      (if state.count > 3 then tap_code16 KC_LBRC else []))

/-- `dance_1_finished` -/
def dance_1_finished : DanceFn := fun state g =>
  let g' := setStep g 1 (dance_step state)
  (g',
    if stepOf g' 1 = SINGLE_TAP then register_code16 KC_LBRC
    else if stepOf g' 1 = SINGLE_HOLD then register_code16 KC_RIGHT_GUI
    else if stepOf g' 1 = DOUBLE_TAP then register_code16 (LSFT KC_LBRC)
    else if stepOf g' 1 = DOUBLE_SINGLE_TAP then tap_code16 KC_LBRC ++ register_code16 KC_LBRC
    else [])

/-- `dance_1_reset` -/
def dance_1_reset : DanceFn := fun _ g =>
  (setStep g 1 0,
    if stepOf g 1 = SINGLE_TAP then unregister_code16 KC_LBRC
    else if stepOf g 1 = SINGLE_HOLD then unregister_code16 KC_RIGHT_GUI
    else if stepOf g 1 = DOUBLE_TAP then unregister_code16 (LSFT KC_LBRC)
    else if stepOf g 1 = DOUBLE_SINGLE_TAP then unregister_code16 KC_LBRC
    else [])

/-- `on_dance_2`: triple-tap / further taps of `KC_RBRC`. -/
def on_dance_2 : DanceFn := fun state g =>
  (g, (if state.count = 3 then tap_code16 KC_RBRC ++ tap_code16 KC_RBRC ++ tap_code16 KC_RBRC
       else []) ++
      (if state.count > 3 then tap_code16 KC_RBRC else []))

/-- `dance_2_finished` -/
def dance_2_finished : DanceFn := fun state g =>
  let g' := setStep g 2 (dance_step state)
  (g',
    if stepOf g' 2 = SINGLE_TAP then register_code16 KC_RBRC
    else if stepOf g' 2 = SINGLE_HOLD then register_code16 KC_RIGHT_ALT
    else if stepOf g' 2 = DOUBLE_TAP then register_code16 (LSFT KC_RBRC)
    else if stepOf g' 2 = DOUBLE_SINGLE_TAP then tap_code16 KC_RBRC ++ register_code16 KC_RBRC
    else [])

/-- `dance_2_reset` -/
def dance_2_reset : DanceFn := fun _ g =>
  (setStep g 2 0,
    if stepOf g 2 = SINGLE_TAP then unregister_code16 KC_RBRC
    else if stepOf g 2 = SINGLE_HOLD then unregister_code16 KC_RIGHT_ALT
    else if stepOf g 2 = DOUBLE_TAP then unregister_code16 (LSFT KC_RBRC)
    else if stepOf g 2 = DOUBLE_SINGLE_TAP then unregister_code16 KC_RBRC
    else [])

/-- `dance_3_finished` (DANCE_3 has no `on_dance` handler). -/
def dance_3_finished : DanceFn := fun state g =>
  let g' := setStep g 3 (dance_step state)
  (g',
    if stepOf g' 3 = SINGLE_HOLD then register_code16 KC_LEFT_CTRL
    else if stepOf g' 3 = DOUBLE_TAP then register_code16 KC_CAPS
    else [])

/-- `dance_3_reset` -/
def dance_3_reset : DanceFn := fun _ g =>
  (setStep g 3 0,
    if stepOf g 3 = SINGLE_HOLD then unregister_code16 KC_LEFT_CTRL
    else if stepOf g 3 = DOUBLE_TAP then unregister_code16 KC_CAPS
    else [])

/-- `on_dance_4`: triple-tap / further taps of `KC_SPACE`. -/
def on_dance_4 : DanceFn := fun state g =>
  (g, (if state.count = 3 then tap_code16 KC_SPACE ++ tap_code16 KC_SPACE ++ tap_code16 KC_SPACE
       else []) ++
      (if state.count > 3 then tap_code16 KC_SPACE else []))

/-- `dance_4_finished` (note: `DOUBLE_TAP` registers `KC_SPACE` twice). -/
def dance_4_finished : DanceFn := fun state g =>
  let g' := setStep g 4 (dance_step state)
  (g',
    if stepOf g' 4 = SINGLE_TAP then register_code16 KC_SPACE
    else if stepOf g' 4 = SINGLE_HOLD then register_code16 KC_ENTER
    else if stepOf g' 4 = DOUBLE_TAP then register_code16 KC_SPACE ++ register_code16 KC_SPACE
    else if stepOf g' 4 = DOUBLE_HOLD then register_code16 (LSFT KC_ENTER)
    else if stepOf g' 4 = DOUBLE_SINGLE_TAP then tap_code16 KC_SPACE ++ register_code16 KC_SPACE
    else [])

/-- `dance_4_reset` -/
def dance_4_reset : DanceFn := fun _ g =>
  (setStep g 4 0,
    if stepOf g 4 = SINGLE_TAP then unregister_code16 KC_SPACE
    else if stepOf g 4 = SINGLE_HOLD then unregister_code16 KC_ENTER
    else if stepOf g 4 = DOUBLE_TAP then unregister_code16 KC_SPACE
    else if stepOf g 4 = DOUBLE_HOLD then unregister_code16 (LSFT KC_ENTER)
    else if stepOf g 4 = DOUBLE_SINGLE_TAP then unregister_code16 KC_SPACE
    else [])

/-- `on_dance_5`: triple-tap / further taps of `KC_BSPC`. -/
def on_dance_5 : DanceFn := fun state g =>
  (g, (if state.count = 3 then tap_code16 KC_BSPC ++ tap_code16 KC_BSPC ++ tap_code16 KC_BSPC
       else []) ++
      (if state.count > 3 then tap_code16 KC_BSPC else []))

/-- `dance_5_finished` -/
def dance_5_finished : DanceFn := fun state g =>
  let g' := setStep g 5 (dance_step state)
  (g',
    if stepOf g' 5 = SINGLE_TAP then register_code16 KC_BSPC
    else if stepOf g' 5 = SINGLE_HOLD then register_code16 KC_RIGHT_SHIFT
    else if stepOf g' 5 = DOUBLE_TAP then register_code16 (RCTL KC_BSPC)
    else if stepOf g' 5 = DOUBLE_HOLD then register_code16 KC_BSPC
    else if stepOf g' 5 = DOUBLE_SINGLE_TAP then tap_code16 KC_BSPC ++ register_code16 KC_BSPC
    else [])

/-- `dance_5_reset` -/
def dance_5_reset : DanceFn := fun _ g =>
  (setStep g 5 0,
    if stepOf g 5 = SINGLE_TAP then unregister_code16 KC_BSPC
    else if stepOf g 5 = SINGLE_HOLD then unregister_code16 KC_RIGHT_SHIFT
    else if stepOf g 5 = DOUBLE_TAP then unregister_code16 (RCTL KC_BSPC)
    else if stepOf g 5 = DOUBLE_HOLD then unregister_code16 KC_BSPC
    else if stepOf g 5 = DOUBLE_SINGLE_TAP then unregister_code16 KC_BSPC
    else [])

/-- `on_dance_6`: triple-tap / further taps of `KC_DELETE`. -/
def on_dance_6 : DanceFn := fun state g =>
  (g, (if state.count = 3 then tap_code16 KC_DELETE ++ tap_code16 KC_DELETE ++ tap_code16 KC_DELETE
       else []) ++
      (if state.count > 3 then tap_code16 KC_DELETE else []))

/-- `dance_6_finished` -/
def dance_6_finished : DanceFn := fun state g =>
  let g' := setStep g 6 (dance_step state)
  (g',
    if stepOf g' 6 = SINGLE_TAP then register_code16 KC_DELETE
    else if stepOf g' 6 = SINGLE_HOLD then register_code16 KC_RIGHT_CTRL
    else if stepOf g' 6 = DOUBLE_TAP then register_code16 (RCTL KC_DELETE)
    else if stepOf g' 6 = DOUBLE_HOLD then register_code16 KC_DELETE
    else if stepOf g' 6 = DOUBLE_SINGLE_TAP then tap_code16 KC_DELETE ++ register_code16 KC_DELETE
    else [])

/-- `dance_6_reset` -/
def dance_6_reset : DanceFn := fun _ g =>
  (setStep g 6 0,
    if stepOf g 6 = SINGLE_TAP then unregister_code16 KC_DELETE
    else if stepOf g 6 = SINGLE_HOLD then unregister_code16 KC_RIGHT_CTRL
    else if stepOf g 6 = DOUBLE_TAP then unregister_code16 (RCTL KC_DELETE)
    else if stepOf g 6 = DOUBLE_HOLD then unregister_code16 KC_DELETE
    else if stepOf g 6 = DOUBLE_SINGLE_TAP then unregister_code16 KC_DELETE
    else [])

/-- One entry of `tap_dance_actions`, as filled in by
`ACTION_TAP_DANCE_FN_ADVANCED(on_each_tap, finished, reset)`; a `NULL`
`on_each_tap` handler is `none`. -/
structure tap_dance_action_t where
  on_each_tap : Option DanceFn
  on_dance_finished : DanceFn
  on_reset : DanceFn

/-- `tap_dance_actions[]` from `keymap.c`, indexed by `DANCE_0 .. DANCE_6`
(`DANCE_3` has a `NULL` `on_each_tap` handler). -/
def tap_dance_actions : List tap_dance_action_t := [
  ⟨some on_dance_0, dance_0_finished, dance_0_reset⟩,
  ⟨some on_dance_1, dance_1_finished, dance_1_reset⟩,
  ⟨some on_dance_2, dance_2_finished, dance_2_reset⟩,
  ⟨none, dance_3_finished, dance_3_reset⟩,
  ⟨some on_dance_4, dance_4_finished, dance_4_reset⟩,
  ⟨some on_dance_5, dance_5_finished, dance_5_reset⟩,
  ⟨some on_dance_6, dance_6_finished, dance_6_reset⟩]

/-- The tap-dance action registered for dance `i`. -/
def danceActionAt (i : Fin 7) : tap_dance_action_t :=
  tap_dance_actions.get ⟨i.val, i.isLt⟩

/-! ### Derived notions used to state the claims -/

/-- The all-zero initial value of the `static` array `dance_state`. -/
def danceGlobals0 : DanceGlobals := fun _ => ⟨false, 0⟩

/-- The five gestures the specification names for a tap-dance key. -/
inductive Gesture where
  | singleTap
  | singleHold
  | doubleTap
  | doubleHold
  | rapid
deriving DecidableEq, Fintype, Repr

/-- The canonical framework `tap_dance_state_t` realising each gesture:
the `(count, interrupted, pressed)` combination `dance_step` classifies
as that gesture; `rapid` is the three-tap state handed to the
`on_each_tap` handler. -/
def gestureState : Gesture → tap_dance_state_t
  | .singleTap => ⟨1, false, false⟩
  | .singleHold => ⟨1, false, true⟩
  | .doubleTap => ⟨2, false, false⟩
  | .doubleHold => ⟨2, false, true⟩
  | .rapid => ⟨3, false, false⟩

/-- The key events dance `i` performs for a gesture, read off the
registered callbacks: the `finished` callback's events for the four
tap/hold gestures, and the `on_each_tap` handler's events on the third
press for `rapid` (no events when the handler is `NULL`). -/
def danceGestureEvents (i : Fin 7) : Gesture → List KeyEvent
  | .rapid =>
    match (danceActionAt i).on_each_tap with
    | some f => (f (gestureState .rapid) danceGlobals0).2
    | none => []
  | gst => ((danceActionAt i).on_dance_finished (gestureState gst) danceGlobals0).2

/-- The key events dance `i`'s `on_each_tap` handler performs on a press
with framework state `s` (no events when the handler is `NULL`). -/
def onDanceEvents (i : Fin 7) (s : tap_dance_state_t) : List KeyEvent :=
  match (danceActionAt i).on_each_tap with
  | some f => (f s danceGlobals0).2
  | none => []

/-- Modelled from the spec: each dance's base keycode, i.e. the keycode
its single-tap action registers and its rapid-tap action repeats.
`DANCE_3` has no tap action; its entry is unused. -/
def danceBaseKC (i : Fin 7) : Nat :=
  [KC_DELETE, KC_LBRC, KC_RBRC, KC_NO, KC_SPACE, KC_BSPC, KC_DELETE].get ⟨i.val, i.isLt⟩

/-- Run dance `i`'s `finished` callback on framework state `s` and then
its `reset` callback (with framework state `s'`), starting from globals
`g`: the final globals and the concatenated key events. -/
def danceFinishedThenReset (i : Fin 7) (s s' : tap_dance_state_t) (g : DanceGlobals) :
    DanceGlobals × List KeyEvent :=
  let r1 := (danceActionAt i).on_dance_finished s g
  let r2 := (danceActionAt i).on_reset s' r1.1
  (r2.1, r1.2 ++ r2.2)

/-- How many times a list of key events registers keycode `k`. -/
def regCount (l : List KeyEvent) (k : Nat) : Nat := l.count (KeyEvent.reg k)

/-- How many times a list of key events unregisters keycode `k`. -/
def unregCount (l : List KeyEvent) (k : Nat) : Nat := l.count (KeyEvent.unreg k)

/-! ### Helper lemmas -/

theorem stepOf_setStep (g : DanceGlobals) (i : Fin 7) (v : Nat) :
    stepOf (setStep g i v) i = v := by
  simp [stepOf, setStep]

theorem dance_step_cases (s : tap_dance_state_t) :
    dance_step s = SINGLE_TAP ∨ dance_step s = SINGLE_HOLD ∨ dance_step s = DOUBLE_TAP ∨
    dance_step s = DOUBLE_HOLD ∨ dance_step s = DOUBLE_SINGLE_TAP ∨
    dance_step s = MORE_TAPS := by
  unfold dance_step
  split_ifs <;> simp [SINGLE_TAP, SINGLE_HOLD, DOUBLE_TAP, DOUBLE_HOLD, DOUBLE_SINGLE_TAP,
    MORE_TAPS]

/-- A list of key events is balanced for every keycode as soon as it is
balanced for the keycodes of the events it contains. -/
theorem balanced_of_mem (l : List KeyEvent)
    (h : ∀ e ∈ l, regCount l e.kc = unregCount l e.kc) (k : Nat) :
    regCount l k = unregCount l k := by
  by_cases h1 : KeyEvent.reg k ∈ l
  · exact h (KeyEvent.reg k) h1
  · by_cases h2 : KeyEvent.unreg k ∈ l
    · exact h (KeyEvent.unreg k) h2
    · rw [regCount, unregCount, List.count_eq_zero_of_not_mem h1,
        List.count_eq_zero_of_not_mem h2]

theorem danceActionAt_0 :
    danceActionAt 0 = ⟨some on_dance_0, dance_0_finished, dance_0_reset⟩ := rfl

theorem danceActionAt_1 :
    danceActionAt 1 = ⟨some on_dance_1, dance_1_finished, dance_1_reset⟩ := rfl

theorem danceActionAt_2 :
    danceActionAt 2 = ⟨some on_dance_2, dance_2_finished, dance_2_reset⟩ := rfl

theorem danceActionAt_3 :
    danceActionAt 3 = ⟨none, dance_3_finished, dance_3_reset⟩ := rfl

theorem danceActionAt_4 :
    danceActionAt 4 = ⟨some on_dance_4, dance_4_finished, dance_4_reset⟩ := rfl

theorem danceActionAt_5 :
    danceActionAt 5 = ⟨some on_dance_5, dance_5_finished, dance_5_reset⟩ := rfl

theorem danceActionAt_6 :
    danceActionAt 6 = ⟨some on_dance_6, dance_6_finished, dance_6_reset⟩ := rfl

/-! ### Claim theorems -/

/-- C2: for `DUAL_FUNC_0`, `process_record_user` registers `KC_BSPC` on a
press with `tap.count > 0` and `LCTL(KC_BSPC)` on a press with
`tap.count == 0`, unregistering the same keycode on the corresponding
release, and returns `false`; the hold keycode is the tap keycode with
the Ctrl modifier bit added. -/
theorem c2_dual_func_0 (c : Nat) (h : 0 < c) :
    process_record_user DUAL_FUNC_0 ⟨c, true⟩ = (false, register_code16 KC_BSPC) ∧
    process_record_user DUAL_FUNC_0 ⟨c, false⟩ = (false, unregister_code16 KC_BSPC) ∧
    process_record_user DUAL_FUNC_0 ⟨0, true⟩ = (false, register_code16 (LCTL KC_BSPC)) ∧
    process_record_user DUAL_FUNC_0 ⟨0, false⟩ = (false, unregister_code16 (LCTL KC_BSPC)) ∧
    LCTL KC_BSPC = QK_LCTL + KC_BSPC := by
  refine ⟨?_, ?_, by decide, by decide, by decide⟩ <;> simp [process_record_user, h]

/-- Witness for C2 at `tap.count = 1`. -/
theorem c2_dual_func_0_witness :
    process_record_user DUAL_FUNC_0 ⟨1, true⟩ = (false, register_code16 KC_BSPC) ∧
    process_record_user DUAL_FUNC_0 ⟨1, false⟩ = (false, unregister_code16 KC_BSPC) ∧
    process_record_user DUAL_FUNC_0 ⟨0, true⟩ = (false, register_code16 (LCTL KC_BSPC)) ∧
    process_record_user DUAL_FUNC_0 ⟨0, false⟩ = (false, unregister_code16 (LCTL KC_BSPC)) ∧
    LCTL KC_BSPC = QK_LCTL + KC_BSPC :=
  c2_dual_func_0 1 (by decide)

/-- C4: the keymap table has exactly four layers, indexed in the order
`_BASE`, `_LOWER`, `_RAISE`, `_ADJUST` (the enum values 0, 1, 2, 3), each
a full `MATRIX_ROWS x MATRIX_COLS` (8 x 6) table of keycodes. -/
theorem c4_keymaps_shape :
    _BASE = 0 ∧ _LOWER = 1 ∧ _RAISE = 2 ∧ _ADJUST = 3 ∧
    MATRIX_ROWS = 8 ∧ MATRIX_COLS = 6 ∧
    keymaps.length = 4 ∧
    (keymaps.all fun layer =>
      layer.length == MATRIX_ROWS && layer.all fun row => row.length == MATRIX_COLS) = true := by
  decide

/-- C5: with `muse_mode` off, `encoder_update` registers and immediately
unregisters `KC_MS_WH_DOWN` (`KC_PGDN` when mouse keys are disabled) on a
clockwise step, and `KC_MS_WH_UP` (`KC_PGUP`) on a counter-clockwise
step, leaving the globals unchanged, for every invocation. -/
theorem c5_encoder_scroll (mousekeyEnabled : Bool) (layer_state : Nat) (g : MuseGlobals)
    (h : g.muse_mode = false) :
    encoder_update mousekeyEnabled layer_state g true =
      (g, register_code (if mousekeyEnabled then KC_MS_WH_DOWN else KC_PGDN) ++
          unregister_code (if mousekeyEnabled then KC_MS_WH_DOWN else KC_PGDN)) ∧
    encoder_update mousekeyEnabled layer_state g false =
      (g, register_code (if mousekeyEnabled then KC_MS_WH_UP else KC_PGUP) ++
          unregister_code (if mousekeyEnabled then KC_MS_WH_UP else KC_PGUP)) := by
  cases mousekeyEnabled <;> simp [encoder_update, h]

/-- Witness for C5 with mouse keys enabled and muse mode off. -/
theorem c5_encoder_scroll_witness :
    encoder_update true 0 ⟨false, 70, 50⟩ true =
      (⟨false, 70, 50⟩, register_code KC_MS_WH_DOWN ++ unregister_code KC_MS_WH_DOWN) ∧
    encoder_update true 0 ⟨false, 70, 50⟩ false =
      (⟨false, 70, 50⟩, register_code KC_MS_WH_UP ++ unregister_code KC_MS_WH_UP) :=
  c5_encoder_scroll true 0 ⟨false, 70, 50⟩ rfl

/-- C6: the build-time configuration constants have the fixed values the
spec states: tapping term 200; mouse-key constants 16, 0, 60, 7, 0; the
Vial UID byte sequence; unlock combo rows `{0, 4}` and columns `{0, 5}`. -/
theorem c6_config_constants :
    TAPPING_TERM = 200 ∧
    MOUSEKEY_INTERVAL = 16 ∧ MOUSEKEY_DELAY = 0 ∧ MOUSEKEY_TIME_TO_MAX = 60 ∧
    MOUSEKEY_MAX_SPEED = 7 ∧ MOUSEKEY_WHEEL_DELAY = 0 ∧
    VIAL_KEYBOARD_UID = [0x89, 0xAB, 0xCD, 0xEF, 0x01, 0x23, 0x45, 0x77] ∧
    VIAL_UNLOCK_COMBO_ROWS = [0, 4] ∧ VIAL_UNLOCK_COMBO_COLS = [0, 5] := by
  decide

/-- C10: `process_record_user` returns `false` exactly when the keycode
is `DUAL_FUNC_0`, and returns `true` performing no key action for every
other keycode. -/
theorem c10_consume_iff_dual_func (keycode : Nat) (record : keyrecord_t) :
    ((process_record_user keycode record).1 = false ↔ keycode = DUAL_FUNC_0) ∧
    (keycode ≠ DUAL_FUNC_0 → process_record_user keycode record = (true, [])) := by
  by_cases h : keycode = DUAL_FUNC_0 <;> simp [process_record_user, h]

/-- Witness for C10 at the ordinary keycode `KC_A`. -/
theorem c10_consume_iff_dual_func_witness :
    process_record_user KC_A ⟨0, true⟩ = (true, []) :=
  (c10_consume_iff_dual_func KC_A ⟨0, true⟩).2 (by decide)

/-- A mask characterisation: `s & 6 = 6` holds exactly when bits 1
(`_LOWER`) and 2 (`_RAISE`) of `s` are both set. -/
theorem land_six_eq (s : Nat) :
    s &&& 6 = 6 ↔ (Nat.testBit s 1 = true ∧ Nat.testBit s 2 = true) := by
  constructor
  · intro h
    constructor
    · have h1 := congrArg (fun x => Nat.testBit x 1) h
      simpa [Nat.testBit_land, show Nat.testBit 6 1 = true from by decide] using h1
    · have h2 := congrArg (fun x => Nat.testBit x 2) h
      simpa [Nat.testBit_land, show Nat.testBit 6 2 = true from by decide] using h2
  · rintro ⟨h1, h2⟩
    apply Nat.eq_of_testBit_eq
    intro j
    rw [Nat.testBit_land]
    match j with
    | 0 => rw [show Nat.testBit 6 0 = false from by decide]; simp
    | 1 => rw [h1, show Nat.testBit 6 1 = true from by decide]; rfl
    | 2 => rw [h2, show Nat.testBit 6 2 = true from by decide]; rfl
    | (n + 3) =>
      have h6 : Nat.testBit 6 (n + 3) = false :=
        Nat.testBit_lt_two_pow
          (lt_of_lt_of_le (by norm_num : (6 : Nat) < 2 ^ 3)
            (Nat.pow_le_pow_right (by norm_num) (by omega)))
      rw [h6]; simp

/-- C8: for every 16-bit layer state `s`, `layer_state_set_user s` has
the `_ADJUST` layer active exactly when both `_LOWER` and `_RAISE` are
active in `s`, and agrees with `s` on every layer other than `_ADJUST`. -/
theorem c8_tri_layer (s : Nat) (hs : s < 2 ^ 16) :
    (Nat.testBit (layer_state_set_user s) _ADJUST =
      (Nat.testBit s _LOWER && Nat.testBit s _RAISE)) ∧
    (∀ j, j ≠ _ADJUST → Nat.testBit (layer_state_set_user s) j = Nat.testBit s j) := by
  have hset : layer_state_set_user s =
      if s &&& 6 = 6 then s ||| 8 else s &&& ((2 ^ 16 - 1) ^^^ 8) := by
    simp only [layer_state_set_user, update_tri_layer_state, _LOWER, _RAISE, _ADJUST]
    rw [show ((1 <<< 1) ||| (1 <<< 2) : Nat) = 6 from by decide,
      show ((1 <<< 3) : Nat) = 8 from by decide]
  simp only [_ADJUST, _LOWER, _RAISE, hset]
  by_cases hc : s &&& 6 = 6
  · obtain ⟨h1, h2⟩ := (land_six_eq s).mp hc
    rw [if_pos hc]
    refine ⟨?_, ?_⟩
    · rw [Nat.testBit_lor, h1, h2, show Nat.testBit 8 3 = true from by decide]
      simp
    · intro j hj
      rw [Nat.testBit_lor, show (8 : Nat) = 2 ^ 3 from by norm_num,
        Nat.testBit_two_pow_of_ne (Ne.symm hj)]
      simp
  · have hrhs : (Nat.testBit s 1 && Nat.testBit s 2) = false := by
      cases ht1 : Nat.testBit s 1 <;> cases ht2 : Nat.testBit s 2 <;>
        simp_all [land_six_eq]
    rw [if_neg hc]
    refine ⟨?_, ?_⟩
    · rw [Nat.testBit_land, Nat.testBit_xor, hrhs,
        show Nat.testBit (2 ^ 16 - 1) 3 = true from by decide,
        show Nat.testBit 8 3 = true from by decide]
      simp
    · intro j hj
      rw [Nat.testBit_land, Nat.testBit_xor, Nat.testBit_two_pow_sub_one,
        show (8 : Nat) = 2 ^ 3 from by norm_num,
        Nat.testBit_two_pow_of_ne (Ne.symm hj)]
      by_cases hj16 : j < 16
      · simp [hj16]
      · have hsj : Nat.testBit s j = false :=
          Nat.testBit_lt_two_pow
            (lt_of_lt_of_le hs (Nat.pow_le_pow_right (by norm_num) (by omega)))
        simp [hsj, hj16]

/-- Witness for C8 at the layer state with `_LOWER` and `_RAISE` set. -/
theorem c8_tri_layer_witness :
    Nat.testBit (layer_state_set_user 6) _ADJUST =
      (Nat.testBit 6 _LOWER && Nat.testBit 6 _RAISE) :=
  (c8_tri_layer 6 (by norm_num)).1

/-- C1 counterexample: dance 0's callbacks perform no action at all for
the single-hold gesture and for the double-hold gesture, so this pair of
distinct gestures neither differs in action nor is non-trivial. -/
theorem c1_counterexample :
    danceGestureEvents 0 Gesture.singleHold = danceGestureEvents 0 Gesture.doubleHold ∧
    danceGestureEvents 0 Gesture.singleHold = [] := by
  decide

/-- C1 amended: dance 4 provides distinct non-trivial actions for every
pair of distinct gestures; every dance provides at least two distinct
non-trivial gesture actions, but the other dances do not distinguish all
five gestures. -/
theorem c1_amended (a b : Gesture) (hab : a ≠ b) :
    (danceGestureEvents 4 a ≠ danceGestureEvents 4 b ∧ danceGestureEvents 4 a ≠ []) ∧
    (∀ i : Fin 7, ∃ x y : Gesture, x ≠ y ∧ danceGestureEvents i x ≠ [] ∧
      danceGestureEvents i y ≠ [] ∧ danceGestureEvents i x ≠ danceGestureEvents i y) := by
  revert hab
  revert a b
  decide

/-- Witness for C1's amended theorem at the single-tap / single-hold
pair. -/
theorem c1_amended_witness :
    danceGestureEvents 4 Gesture.singleTap ≠ danceGestureEvents 4 Gesture.singleHold ∧
    danceGestureEvents 4 Gesture.singleTap ≠ [] :=
  (c1_amended Gesture.singleTap Gesture.singleHold (by decide)).1

/-- C3 counterexample: `DANCE_3` is registered with a `NULL` `on_each_tap`
handler, so rapid repeated taps of that dance key perform no tap at all,
against the claim that every tap dance key taps its base keycode three
times when `state->count == 3`. -/
theorem c3_counterexample :
    (danceActionAt 3).on_each_tap = none ∧ danceGestureEvents 3 Gesture.rapid = [] :=
  ⟨rfl, rfl⟩

/-- C3 amended: for every tap dance key except `DANCE_3` (which has no
`on_each_tap` handler), the handler taps the dance's base keycode three
times when the framework reports `state->count == 3` and taps it once
more per press for every `state->count > 3`. -/
theorem c3_amended (i : Fin 7) (hi : i ≠ 3) (c : Nat) (hc : 3 < c) (itr prs : Bool) :
    danceGestureEvents i Gesture.singleTap = register_code16 (danceBaseKC i) ∧
    onDanceEvents i ⟨3, itr, prs⟩ =
      tap_code16 (danceBaseKC i) ++ tap_code16 (danceBaseKC i) ++ tap_code16 (danceBaseKC i) ∧
    onDanceEvents i ⟨c, itr, prs⟩ = tap_code16 (danceBaseKC i) := by
  have hc3 : c ≠ 3 := by omega
  fin_cases i
  · refine ⟨by decide, by cases itr <;> cases prs <;> decide, ?_⟩
    show (on_dance_0 ⟨c, itr, prs⟩ danceGlobals0).2 = tap_code16 KC_DELETE
    simp [on_dance_0, hc3, hc]
  · refine ⟨by decide, by cases itr <;> cases prs <;> decide, ?_⟩
    show (on_dance_1 ⟨c, itr, prs⟩ danceGlobals0).2 = tap_code16 KC_LBRC
    simp [on_dance_1, hc3, hc]
  · refine ⟨by decide, by cases itr <;> cases prs <;> decide, ?_⟩
    show (on_dance_2 ⟨c, itr, prs⟩ danceGlobals0).2 = tap_code16 KC_RBRC
    simp [on_dance_2, hc3, hc]
  · exact absurd (Fin.ext rfl) hi
  · refine ⟨by decide, by cases itr <;> cases prs <;> decide, ?_⟩
    show (on_dance_4 ⟨c, itr, prs⟩ danceGlobals0).2 = tap_code16 KC_SPACE
    simp [on_dance_4, hc3, hc]
  · refine ⟨by decide, by cases itr <;> cases prs <;> decide, ?_⟩
    show (on_dance_5 ⟨c, itr, prs⟩ danceGlobals0).2 = tap_code16 KC_BSPC
    simp [on_dance_5, hc3, hc]
  · refine ⟨by decide, by cases itr <;> cases prs <;> decide, ?_⟩
    show (on_dance_6 ⟨c, itr, prs⟩ danceGlobals0).2 = tap_code16 KC_DELETE
    simp [on_dance_6, hc3, hc]

/-- Witness for C3's amended theorem at dance 0 with a fourth press. -/
theorem c3_amended_witness :
    danceGestureEvents 0 Gesture.singleTap = register_code16 (danceBaseKC 0) ∧
    onDanceEvents 0 ⟨3, false, false⟩ =
      tap_code16 (danceBaseKC 0) ++ tap_code16 (danceBaseKC 0) ++ tap_code16 (danceBaseKC 0) ∧
    onDanceEvents 0 ⟨4, false, false⟩ = tap_code16 (danceBaseKC 0) :=
  c3_amended 0 (by decide) 4 (by decide) false false

/-- C7 counterexample: two invocations of `dance_0_reset` with the same
`tap_dance_state_t` argument perform different key actions when the step
stored in `dance_state[0]` by earlier calls differs, so the effect of a
reset callback is not determined solely by its argument. -/
theorem c7_counterexample :
    (dance_0_reset (gestureState Gesture.singleTap) (setStep danceGlobals0 0 SINGLE_TAP)).2 ≠
    (dance_0_reset (gestureState Gesture.singleTap) (setStep danceGlobals0 0 DOUBLE_TAP)).2 := by
  decide

/-- C7 amended: the `on_each_tap` and `finished` callbacks perform key
actions determined solely by their `tap_dance_state_t` argument; the
`reset` callbacks' actions are determined by their argument together with
the step stored in `dance_state[i]` by the preceding `finished` call (in
fact by that step alone), the static `dance_state` array being the only
state the repository introduces. -/
theorem c7_amended (i : Fin 7) (s : tap_dance_state_t) (g g' : DanceGlobals) :
    ((danceActionAt i).on_dance_finished s g).2 = ((danceActionAt i).on_dance_finished s g').2 ∧
    (∀ f, (danceActionAt i).on_each_tap = some f → (f s g).2 = (f s g').2) ∧
    (stepOf g i = stepOf g' i →
      ((danceActionAt i).on_reset s g).2 = ((danceActionAt i).on_reset s g').2) := by
  fin_cases i
  · refine ⟨?_, fun f hf => ?_, fun hstep => ?_⟩
    · simp [danceActionAt_0, dance_0_finished, stepOf_setStep]
    · have hf0 : (danceActionAt 0).on_each_tap = some f := hf
      rw [danceActionAt_0] at hf0
      cases Option.some.inj hf0
      rfl
    · simp [danceActionAt_0, dance_0_reset, show stepOf g 0 = stepOf g' 0 from hstep]
  · refine ⟨?_, fun f hf => ?_, fun hstep => ?_⟩
    · simp [danceActionAt_1, dance_1_finished, stepOf_setStep]
    · have hf1 : (danceActionAt 1).on_each_tap = some f := hf
      rw [danceActionAt_1] at hf1
      cases Option.some.inj hf1
      rfl
    · simp [danceActionAt_1, dance_1_reset, show stepOf g 1 = stepOf g' 1 from hstep]
  · refine ⟨?_, fun f hf => ?_, fun hstep => ?_⟩
    · simp [danceActionAt_2, dance_2_finished, stepOf_setStep]
    · have hf2 : (danceActionAt 2).on_each_tap = some f := hf
      rw [danceActionAt_2] at hf2
      cases Option.some.inj hf2
      rfl
    · simp [danceActionAt_2, dance_2_reset, show stepOf g 2 = stepOf g' 2 from hstep]
  · refine ⟨?_, fun f hf => ?_, fun hstep => ?_⟩
    · simp [danceActionAt_3, dance_3_finished, stepOf_setStep]
    · have hf3 : (danceActionAt 3).on_each_tap = some f := hf
      rw [danceActionAt_3] at hf3
      exact Option.noConfusion hf3
    · simp [danceActionAt_3, dance_3_reset, show stepOf g 3 = stepOf g' 3 from hstep]
  · refine ⟨?_, fun f hf => ?_, fun hstep => ?_⟩
    · simp [danceActionAt_4, dance_4_finished, stepOf_setStep]
    · have hf4 : (danceActionAt 4).on_each_tap = some f := hf
      rw [danceActionAt_4] at hf4
      cases Option.some.inj hf4
      rfl
    · simp [danceActionAt_4, dance_4_reset, show stepOf g 4 = stepOf g' 4 from hstep]
  · refine ⟨?_, fun f hf => ?_, fun hstep => ?_⟩
    · simp [danceActionAt_5, dance_5_finished, stepOf_setStep]
    · have hf5 : (danceActionAt 5).on_each_tap = some f := hf
      rw [danceActionAt_5] at hf5
      cases Option.some.inj hf5
      rfl
    · simp [danceActionAt_5, dance_5_reset, show stepOf g 5 = stepOf g' 5 from hstep]
  · refine ⟨?_, fun f hf => ?_, fun hstep => ?_⟩
    · simp [danceActionAt_6, dance_6_finished, stepOf_setStep]
    · have hf6 : (danceActionAt 6).on_each_tap = some f := hf
      rw [danceActionAt_6] at hf6
      cases Option.some.inj hf6
      rfl
    · simp [danceActionAt_6, dance_6_reset, show stepOf g 6 = stepOf g' 6 from hstep]

/-- Witness for C7's amended theorem: dance 0's reset acts identically on
two distinct globals agreeing on `dance_state[0]`. -/
theorem c7_amended_witness :
    ((danceActionAt 0).on_reset (gestureState Gesture.singleTap) danceGlobals0).2 =
    ((danceActionAt 0).on_reset (gestureState Gesture.singleTap)
      (setStep danceGlobals0 1 DOUBLE_TAP)).2 :=
  (c7_amended 0 (gestureState Gesture.singleTap) danceGlobals0
    (setStep danceGlobals0 1 DOUBLE_TAP)).2.2 (by decide)

/-- C9 counterexample: for dance 4 and the double-tap classification, the
`finished` callback registers `KC_SPACE` twice but the `reset` callback
unregisters it only once, so the register count is not matched by the
unregister count. -/
theorem c9_counterexample :
    regCount (danceFinishedThenReset 4 (gestureState Gesture.doubleTap)
      (gestureState Gesture.doubleTap) danceGlobals0).2 KC_SPACE = 2 ∧
    unregCount (danceFinishedThenReset 4 (gestureState Gesture.doubleTap)
      (gestureState Gesture.doubleTap) danceGlobals0).2 KC_SPACE = 1 := by
  decide

/-- Running `finished` then `reset` for dance `i` registers and
unregisters every keycode equally often, except for dance 4's double-tap
step. -/
theorem danceFTR_balanced (i : Fin 7) (s s' : tap_dance_state_t) (g : DanceGlobals) (k : Nat)
    (h : ¬(i = 4 ∧ dance_step s = DOUBLE_TAP)) :
    regCount (danceFinishedThenReset i s s' g).2 k =
      unregCount (danceFinishedThenReset i s s' g).2 k := by
  fin_cases i <;>
  rcases dance_step_cases s with hds | hds | hds | hds | hds | hds <;>
  first
    | exact absurd (And.intro rfl hds) h
    | (simp [danceFinishedThenReset, danceActionAt_0, danceActionAt_1, danceActionAt_2,
        danceActionAt_3, danceActionAt_4, danceActionAt_5, danceActionAt_6,
        dance_0_finished, dance_1_finished, dance_2_finished, dance_3_finished,
        dance_4_finished, dance_5_finished, dance_6_finished,
        dance_0_reset, dance_1_reset, dance_2_reset, dance_3_reset,
        dance_4_reset, dance_5_reset, dance_6_reset, stepOf_setStep, hds,
        SINGLE_TAP, SINGLE_HOLD, DOUBLE_TAP, DOUBLE_HOLD, DOUBLE_SINGLE_TAP, MORE_TAPS] ;
       exact balanced_of_mem _ (by decide) k)

/-- Running `finished` then `reset` for dance `i` always leaves
`dance_state[i].step` equal to 0. -/
theorem danceFTR_step0 (i : Fin 7) (s s' : tap_dance_state_t) (g : DanceGlobals) :
    stepOf (danceFinishedThenReset i s s' g).1 i = 0 := by
  fin_cases i <;>
    simp [danceFinishedThenReset, danceActionAt_0, danceActionAt_1, danceActionAt_2,
      danceActionAt_3, danceActionAt_4, danceActionAt_5, danceActionAt_6,
      dance_0_finished, dance_1_finished, dance_2_finished, dance_3_finished,
      dance_4_finished, dance_5_finished, dance_6_finished,
      dance_0_reset, dance_1_reset, dance_2_reset, dance_3_reset,
      dance_4_reset, dance_5_reset, dance_6_reset, stepOf_setStep]

/-- C9 amended: for every dance `i` and every framework state, running
`dance_i_finished` followed by `dance_i_reset` leaves
`dance_state[i].step` equal to 0, and — except for dance 4's double-tap
step, where `KC_SPACE` is registered twice but unregistered once —
registers and unregisters every keycode equally often, leaving no key
registered. -/
theorem c9_finished_reset (i : Fin 7) (s s' : tap_dance_state_t) (g : DanceGlobals) (k : Nat)
    (h : ¬(i = 4 ∧ dance_step s = DOUBLE_TAP)) :
    regCount (danceFinishedThenReset i s s' g).2 k =
      unregCount (danceFinishedThenReset i s s' g).2 k ∧
    stepOf (danceFinishedThenReset i s s' g).1 i = 0 :=
  ⟨danceFTR_balanced i s s' g k h, danceFTR_step0 i s s' g⟩

/-- Witness for C9's amended theorem at dance 0, single tap, keycode
`KC_DELETE`. -/
theorem c9_finished_reset_witness :
    regCount (danceFinishedThenReset 0 (gestureState Gesture.singleTap)
      (gestureState Gesture.singleTap) danceGlobals0).2 KC_DELETE =
      unregCount (danceFinishedThenReset 0 (gestureState Gesture.singleTap)
        (gestureState Gesture.singleTap) danceGlobals0).2 KC_DELETE ∧
    stepOf (danceFinishedThenReset 0 (gestureState Gesture.singleTap)
      (gestureState Gesture.singleTap) danceGlobals0).1 0 = 0 :=
  c9_finished_reset 0 (gestureState Gesture.singleTap) (gestureState Gesture.singleTap)
    danceGlobals0 KC_DELETE (by decide)

end Planck
